import Mathlib

/-! Verification of the FirstPlay backend's deterministic core: the skill
normalizer / matcher / gap analyzer (`app/analysis/gap_analysis.py`) and the
five-stage pipeline orchestrator (`app/pipeline/nodes.py`,
`app/pipeline/graphy.py`).

The Python functions are shallowly embedded as executable Lean definitions.
Python strings are modelled as Lean `String` (a list of characters);
`str.lower` is modelled per character by `Char.toLower`, which agrees with
Python on the ASCII range, and `str.strip` by dropping whitespace characters
from both ends.  JSON (de)serialization of parsed payloads
(`model_dump_json` / `model_validate_json`) is modelled as the identity
embedding `Option` of the structured value.  Database rows are records in an
explicit `DB` value; the autoincrement primary key is an explicit counter.
-/

namespace FirstPlay

/-! Part 1: Python string primitives. -/

/-- The whitespace characters recognised by Python's `str.strip()`
(space, tab, newline, carriage return, vertical tab, form feed). -/
def pyIsSpace (c : Char) : Bool :=
  c = ' ' || c = '\t' || c = '\n' || c = '\r' || c = '\x0b' || c = '\x0c'

/-- Python `str.lower()`, modelled per character (faithful on ASCII). -/
def pyLower (s : String) : String :=
  ⟨s.data.map Char.toLower⟩

/-- Python `str.strip()` on the underlying character list: remove leading
whitespace, then trailing whitespace. -/
def stripChars (l : List Char) : List Char :=
  List.rdropWhile pyIsSpace (List.dropWhile pyIsSpace l)

/-- Python `str.strip()`. -/
def pyStrip (s : String) : String :=
  ⟨stripChars s.data⟩

/-! Part 2: the skill-gap engine, `app/analysis/gap_analysis.py`. -/

/-- The fixed alias table `replacements` of `normalize_skill`
(a Python dict literal; iteration order is insertion order). -/
def replacements : List (String × String) :=
  [("javascript", "js"),
   ("typescript", "ts"),
   ("postgresql", "postgres"),
   ("reactjs", "react"),
   ("react.js", "react"),
   ("node.js", "node"),
   ("nodejs", "node")]

/-- Embedding of `normalize_skill(skill)`: lowercase, strip, then return the alias target
if the whole string equals an alias key, else the lowercased stripped
string.  The Python loop `for old, new in replacements.items(): if skill ==
old: return new` returns at the first key equal to `skill`, i.e. it is a
`find?` over the table. -/
def normalize_skill (skill : String) : String :=
  let skill := pyStrip (pyLower skill)
  match replacements.find? (fun p => p.1 == skill) with
  | some p => p.2
  | none => skill

/-- Embedding of `skills_match(skill1, skill2)`: equality of normalized forms. -/
def skills_match (skill1 skill2 : String) : Bool :=
  normalize_skill skill1 == normalize_skill skill2

/-- Embedding of `find_matching_skills(resume_skills, job_skills)`.  The Python code
builds a dict comprehension keyed by the normalized resume skills and then
appends `job_skill` whenever `normalize_skill(job_skill)` is a key of that
dict; dict-key membership is membership in the list of normalized resume
skills (the dict's values are never read). -/
def find_matching_skills (resume_skills job_skills : List String) : List String :=
  let resume_normalized := resume_skills.map normalize_skill
  job_skills.filter (fun job_skill => resume_normalized.contains (normalize_skill job_skill))

/-- Schema `ResumeParsed` (Pydantic schema, `app/schemas.py`): only the fields,
with sub-records collapsed to their field lists. -/
structure ExperienceItem where
  company : String
  title : String
  duration : String
  bullets : List String
deriving DecidableEq, Repr

structure ProjectItem where
  name : String
  description : String
  technologies : List String
  highlights : List String
deriving DecidableEq, Repr

structure EducationItem where
  institution : String
  degree : String
  graduation_date : String
  gpa : Option String
deriving DecidableEq, Repr

structure ResumeParsed where
  name : String
  email : Option String
  phone : Option String
  skills : List String
  experience : List ExperienceItem
  projects : List ProjectItem
  education : List EducationItem
deriving DecidableEq, Repr

/-- Schema `JobParsed` (Pydantic schema, `app/schemas.py`). -/
structure JobParsed where
  job_title : String
  company : Option String
  required_skills : List String
  preferred_skills : List String
  keywords : List String
  responsibilities : List String
  qualifications : List String
deriving DecidableEq, Repr

/-- The dictionary returned by `compute_gap`. -/
structure GapResult where
  overlapping_skills : List String
  missing_required_skills : List String
  missing_preferred_skills : List String
  weak_skills : List String
deriving DecidableEq, Repr

/-- Embedding of `compute_gap(resume, job)`.  Python's `list(set(...))` returns the
deduplicated elements in an unspecified order; it is modelled by
`List.dedup`, and every theorem about `overlapping_skills` below is stated
up to membership only. -/
def compute_gap (resume : ResumeParsed) (job : JobParsed) : GapResult :=
  let resume_skills := resume.skills
  let overlapping_required := find_matching_skills resume_skills job.required_skills
  let overlapping_preferred := find_matching_skills resume_skills job.preferred_skills
  let missing_required := job.required_skills.filter
    (fun skill => !(resume_skills.any (fun rs => skills_match skill rs)))
  let missing_preferred := job.preferred_skills.filter
    (fun skill => !(resume_skills.any (fun rs => skills_match skill rs)))
  let all_overlapping := (overlapping_required ++ overlapping_preferred).dedup
  { overlapping_skills := all_overlapping
    missing_required_skills := missing_required
    missing_preferred_skills := missing_preferred
    weak_skills := [] }

/-! Part 3: the pipeline data model (`app/pipeline/state.py`, `app/models.py`).

Parsed payloads of the two generation collaborators.  Only their existence
matters to the orchestrator; the fields follow `app/schemas.py`. -/

structure ProjectIdea where
  title : String
  skill_targets : List String
  difficulty : String
  description : String
  estimated_duration : String
  key_features : List String
  technologies : List String
deriving DecidableEq, Repr

structure ProjectPlanParsed where
  projects : List ProjectIdea
deriving DecidableEq, Repr

structure ImprovedResumeParsed where
  name : String
  contact : String
  summary : Option String
  skills : List String
deriving DecidableEq, Repr

/-- Schema `PipelineState` (`app/pipeline/state.py`): the TypedDict threaded
through the stages. -/
structure PipelineState where
  resume_id : Nat
  job_id : Nat
  resume_parsed : Option ResumeParsed
  job_parsed : Option JobParsed
  gap_analysis : Option GapResult
  projects : Option ProjectPlanParsed
  improved_resume : Option ImprovedResumeParsed
  analysis_id : Option Nat
  project_plan_id : Option Nat
  improved_resume_id : Option Nat
  error : Option String
deriving DecidableEq, Repr

/-- A `Resume` row (`app/models.py`): `parsed_json` (a nullable JSON text
column) is modelled as the optional parsed value itself. -/
structure ResumeRecord where
  id : Nat
  raw_text : String
  parsed_json : Option ResumeParsed
deriving DecidableEq, Repr

/-- A `JobDescription` row (`app/models.py`). -/
structure JobRecord where
  id : Nat
  extracted_text : String
  parsed_json : Option JobParsed
deriving DecidableEq, Repr

structure GapAnalysisRecord where
  id : Nat
  resume_id : Nat
  job_id : Nat
  analysis_json : GapResult
deriving DecidableEq, Repr

structure ProjectPlanRecord where
  id : Nat
  analysis_id : Option Nat
  plan_json : ProjectPlanParsed
deriving DecidableEq, Repr

structure ImprovedResumeRecord where
  id : Nat
  resume_id : Nat
  job_id : Nat
  improved_json : ImprovedResumeParsed
deriving DecidableEq, Repr

/-- The relational store seen through the SQLAlchemy session: one table per
model plus an explicit autoincrement counter for freshly inserted rows. -/
structure DB where
  resumes : List ResumeRecord
  jobs : List JobRecord
  gap_analyses : List GapAnalysisRecord
  project_plans : List ProjectPlanRecord
  improved_resumes : List ImprovedResumeRecord
  next_id : Nat
deriving DecidableEq, Repr

/-- The external collaborators invoked by the stages (`app/chains/*`): each
may fail with a Python exception, modelled as `Except` with the exception's
message.  `generate_projects` and `improve_resume` receive whatever the
state holds, which may be `None` (the Python code passes it unchecked). -/
structure Collaborators where
  parse_resume_text : String → Except String ResumeParsed
  parse_jd_text : String → Except String JobParsed
  gen_projects : Option GapResult → Except String ProjectPlanParsed
  improve : Option ResumeParsed → Option JobParsed → Option GapResult →
    Except String ImprovedResumeParsed

/-! Part 4: the pipeline stages (`app/pipeline/nodes.py`).

Each node is the body of the corresponding Python function, whose whole
body runs inside `try/except Exception`: any exception is caught and
recorded as a message in `state.error`.  Each parse node additionally
reports how many times it invoked its parsing collaborator (0 or 1), for
the record-level caching property. -/

/-- Embedding of `parse_resume_node`: fetch the `Resume` row, report "not found",
otherwise parse the raw text unless a parsed payload is already stored
(then deserialize the stored payload; the collaborator is not called). -/
def parse_resume_node (c : Collaborators) (db : DB) (state : PipelineState) :
    PipelineState × DB × Nat :=
  match db.resumes.find? (fun r => r.id == state.resume_id) with
  | none =>
      ({ state with error := some ("Resume " ++ toString state.resume_id ++ " not found") },
       db, 0)
  | some resume =>
      match resume.parsed_json with
      | none =>
          match c.parse_resume_text resume.raw_text with
          | Except.error e =>
              ({ state with error := some ("Error parsing resume: " ++ e) }, db, 1)
          | Except.ok parsed =>
              let db := { db with
                resumes := db.resumes.map
                  (fun r => if r.id == resume.id then { r with parsed_json := some parsed } else r) }
              ({ state with resume_parsed := some parsed }, db, 1)
      | some payload =>
          ({ state with resume_parsed := some payload }, db, 0)

/-- Embedding of `parse_job_node`: same shape as `parse_resume_node` over the
`JobDescription` row. -/
def parse_job_node (c : Collaborators) (db : DB) (state : PipelineState) :
    PipelineState × DB × Nat :=
  match db.jobs.find? (fun j => j.id == state.job_id) with
  | none =>
      ({ state with error := some ("Job " ++ toString state.job_id ++ " not found") }, db, 0)
  | some job =>
      match job.parsed_json with
      | none =>
          match c.parse_jd_text job.extracted_text with
          | Except.error e =>
              ({ state with error := some ("Error parsing job: " ++ e) }, db, 1)
          | Except.ok parsed =>
              let db := { db with
                jobs := db.jobs.map
                  (fun j => if j.id == job.id then { j with parsed_json := some parsed } else j) }
              ({ state with job_parsed := some parsed }, db, 1)
      | some payload =>
          ({ state with job_parsed := some payload }, db, 0)

/-- The message of the `AttributeError` raised by `compute_gap(None, job)`
(Python evaluates `resume.skills` first), as wrapped by the node. -/
def gapErrNoResume : String :=
  "Error in gap analysis: 'NoneType' object has no attribute 'skills'"

/-- The message of the `AttributeError` raised by `compute_gap(resume, None)`
(Python reaches `job.required_skills` first), as wrapped by the node. -/
def gapErrNoJob : String :=
  "Error in gap analysis: 'NoneType' object has no attribute 'required_skills'"

/-- Embedding of `analyze_gap_node`: reads `state["resume_parsed"]` / `state["job_parsed"]`
without any null or error check.  When a payload is `None`, `compute_gap`
dereferences it (`resume.skills`, `job.required_skills`) and the resulting
`AttributeError` is caught by the node's `except`, which overwrites
`state["error"]` with the new message. -/
def analyze_gap_node (db : DB) (state : PipelineState) : PipelineState × DB :=
  match state.resume_parsed with
  | none =>
      ({ state with error := some gapErrNoResume }, db)
  | some resume_parsed =>
      match state.job_parsed with
      | none =>
          ({ state with error := some gapErrNoJob }, db)
      | some job_parsed =>
          let gap_result := compute_gap resume_parsed job_parsed
          let rec_id := db.next_id
          let record : GapAnalysisRecord :=
            { id := rec_id, resume_id := state.resume_id, job_id := state.job_id,
              analysis_json := gap_result }
          let db := { db with gap_analyses := db.gap_analyses ++ [record],
                              next_id := db.next_id + 1 }
          ({ state with gap_analysis := some gap_result, analysis_id := some rec_id }, db)

/-- Embedding of `generate_projects_node`: passes `state["gap_analysis"]` (possibly
`None`) to the generation collaborator; a collaborator exception is caught
and recorded, otherwise the plan is persisted and the state updated. -/
def generate_projects_node (c : Collaborators) (db : DB) (state : PipelineState) :
    PipelineState × DB :=
  match c.gen_projects state.gap_analysis with
  | Except.error e =>
      ({ state with error := some ("Error generating projects: " ++ e) }, db)
  | Except.ok project_plan =>
      let rec_id := db.next_id
      let record : ProjectPlanRecord :=
        { id := rec_id, analysis_id := state.analysis_id, plan_json := project_plan }
      let db := { db with project_plans := db.project_plans ++ [record],
                          next_id := db.next_id + 1 }
      ({ state with projects := some project_plan, project_plan_id := some rec_id }, db)

/-- Embedding of `improve_resume_node`: passes the (possibly `None`) parsed payloads and
gap result to the rewriting collaborator. -/
def improve_resume_node (c : Collaborators) (db : DB) (state : PipelineState) :
    PipelineState × DB :=
  match c.improve state.resume_parsed state.job_parsed state.gap_analysis with
  | Except.error e =>
      ({ state with error := some ("Error improving resume: " ++ e) }, db)
  | Except.ok improved =>
      let rec_id := db.next_id
      let record : ImprovedResumeRecord :=
        { id := rec_id, resume_id := state.resume_id, job_id := state.job_id,
          improved_json := improved }
      let db := { db with improved_resumes := db.improved_resumes ++ [record],
                          next_id := db.next_id + 1 }
      ({ state with improved_resume := some improved, improved_resume_id := some rec_id }, db)

/-- How many times each parsing collaborator was invoked during a run. -/
structure ParseCalls where
  resume_calls : Nat
  job_calls : Nat
deriving DecidableEq, Repr

/-- Embedding of `graph.invoke` on the compiled graph of `create_pipeline_graph`
(`app/pipeline/graphy.py`): parse_resume → parse_job → analyze_gap →
generate_projects → improve_resume.  The two fan-out stages after
`analyze_gap` run sequentially in one fixed order within a single run. -/
def invoke_graph (c : Collaborators) (db : DB) (state : PipelineState) :
    PipelineState × DB × ParseCalls :=
  let r1 := parse_resume_node c db state
  let r2 := parse_job_node c r1.2.1 r1.1
  let r3 := analyze_gap_node r2.2.1 r2.1
  let r4 := generate_projects_node c r3.2 r3.1
  let r5 := improve_resume_node c r4.2 r4.1
  (r5.1, r5.2, { resume_calls := r1.2.2, job_calls := r2.2.2 })

/-- The initial state built by `run_pipeline`: both ids set, every other
field `None`. -/
def initial_state (resume_id job_id : Nat) : PipelineState :=
  { resume_id := resume_id
    job_id := job_id
    resume_parsed := none
    job_parsed := none
    gap_analysis := none
    projects := none
    improved_resume := none
    analysis_id := none
    project_plan_id := none
    improved_resume_id := none
    error := none }

/-- Embedding of `run_pipeline(resume_id, job_id, db)`: build the initial state, invoke
the graph, and if the final state carries an error, raise
`Exception(final_state["error"])`; that raise happens inside the driver's
own `try`, so the enclosing `except` re-wraps it as
`"Pipeline execution failed: ..."`.  A raised exception is modelled as
`Except.error` with the exception's message. -/
def run_pipeline (c : Collaborators) (resume_id job_id : Nat) (db : DB) :
    Except String PipelineState × DB :=
  let result := invoke_graph c db (initial_state resume_id job_id)
  let final_state := result.1
  match final_state.error with
  | some e => (Except.error ("Pipeline execution failed: " ++ e), result.2.1)
  | none => (Except.ok final_state, result.2.1)

/-! Part 5: concrete sample data used in the spec's worked examples. -/

/-- A parsed resume carrying only the given skill list. -/
def sampleResume (skills : List String) : ResumeParsed :=
  { name := "Jane Doe", email := none, phone := none, skills := skills,
    experience := [], projects := [], education := [] }

/-- A parsed job carrying only the given required/preferred skill lists. -/
def sampleJob (req pref : List String) : JobParsed :=
  { job_title := "Engineer", company := none, required_skills := req,
    preferred_skills := pref, keywords := [], responsibilities := [],
    qualifications := [] }

/-- A database with no rows. -/
def emptyDB : DB :=
  { resumes := [], jobs := [], gap_analyses := [], project_plans := [],
    improved_resumes := [], next_id := 1 }

/-- A database whose resume row 1 and job row 2 both carry previously
persisted parsed payloads. -/
def cachedDB : DB :=
  { resumes := [{ id := 1, raw_text := "raw resume",
                  parsed_json := some (sampleResume ["Python"]) }],
    jobs := [{ id := 2, extracted_text := "raw jd",
               parsed_json := some (sampleJob ["Python"] []) }],
    gap_analyses := [], project_plans := [], improved_resumes := [], next_id := 1 }

/-- Collaborators that always succeed. -/
def okCollabs : Collaborators :=
  { parse_resume_text := fun _ => Except.ok (sampleResume ["Python"])
    parse_jd_text := fun _ => Except.ok (sampleJob ["Python"] [])
    gen_projects := fun _ => Except.ok { projects := [] }
    improve := fun _ _ _ =>
      Except.ok { name := "Jane Doe", contact := "", summary := none, skills := [] } }

/-- Collaborators that always raise (the generator raises the
`AttributeError` Python produces for `None.get`). -/
def failingCollabs : Collaborators :=
  { parse_resume_text := fun _ => Except.error "boom"
    parse_jd_text := fun _ => Except.error "boom"
    gen_projects := fun _ => Except.error "'NoneType' object has no attribute 'get'"
    improve := fun _ _ _ => Except.error "boom" }

/-- The state right after a failed candidate-parse stage: the first error is
recorded and `resume_parsed` is still `None`. -/
def errState : PipelineState :=
  { initial_state 1 2 with error := some "Resume 1 not found" }

/-- A state whose resume payload is present but whose job payload is
missing, with a first error already recorded. -/
def errState2 : PipelineState :=
  { initial_state 1 2 with resume_parsed := some (sampleResume ["Python"]),
                           error := some "Job 2 not found" }


/-! Part 6: supporting lemmas. -/

lemma no_match_pred (skills : List String) (skill : String) :
    (!(skills.any (fun rs => skills_match skill rs)))
      = decide (∀ rs ∈ skills, normalize_skill rs ≠ normalize_skill skill) := by
  rw [Bool.eq_iff_iff]
  simp [skills_match, List.any_eq_false]
  constructor
  · intro h rs hrs
    exact fun hh => h rs hrs hh.symm
  · intro h rs hrs
    exact fun hh => h rs hrs hh.symm

lemma mem_find_matching (c ref : List String) (l : String) :
    l ∈ find_matching_skills c ref
      ↔ l ∈ ref ∧ ∃ s ∈ c, normalize_skill s = normalize_skill l := by
  simp [find_matching_skills, List.mem_filter]

lemma contains_eq_any (c : List String) (l : String) :
    ((c.map normalize_skill).contains (normalize_skill l))
      = c.any (fun s => skills_match s l) := by
  rw [Bool.eq_iff_iff]
  simp [skills_match, List.any_eq_true]

lemma find_matching_eq_filter (c ref : List String) :
    find_matching_skills c ref = ref.filter (fun l => c.any (fun s => skills_match s l)) := by
  unfold find_matching_skills
  exact List.filter_congr (fun x _ => contains_eq_any c x)

lemma mem_overlapping (resume : ResumeParsed) (job : JobParsed) (s : String) :
    s ∈ (compute_gap resume job).overlapping_skills
      ↔ s ∈ find_matching_skills resume.skills job.required_skills
        ∨ s ∈ find_matching_skills resume.skills job.preferred_skills := by
  simp [compute_gap, List.mem_dedup]

lemma mem_missing_required (resume : ResumeParsed) (job : JobParsed) (l : String) :
    l ∈ (compute_gap resume job).missing_required_skills
      ↔ l ∈ job.required_skills
        ∧ ∀ rs ∈ resume.skills, normalize_skill rs ≠ normalize_skill l := by
  simp only [compute_gap, List.mem_filter, no_match_pred, decide_eq_true_eq]

lemma mem_missing_preferred (resume : ResumeParsed) (job : JobParsed) (l : String) :
    l ∈ (compute_gap resume job).missing_preferred_skills
      ↔ l ∈ job.preferred_skills
        ∧ ∀ rs ∈ resume.skills, normalize_skill rs ≠ normalize_skill l := by
  simp only [compute_gap, List.mem_filter, no_match_pred, decide_eq_true_eq]

lemma toLower_of_not {c : Char} (h : ¬(c.toNat ≥ 65 ∧ c.toNat ≤ 90)) : c.toLower = c := by
  simp only [Char.toLower]
  rw [if_neg h]

lemma toLower_idem (c : Char) : c.toLower.toLower = c.toLower := by
  by_cases h : c.toNat ≥ 65 ∧ c.toNat ≤ 90
  · have hc : c.toLower = Char.ofNat (c.toNat + 32) := by
      simp only [Char.toLower]
      rw [if_pos h]
    rw [hc]
    obtain ⟨h1, h2⟩ := h
    obtain ⟨n, hn⟩ : ∃ n, c.toNat = n := ⟨c.toNat, rfl⟩
    rw [hn] at h1 h2 ⊢
    interval_cases n <;> decide
  · rw [toLower_of_not h]
    exact toLower_of_not h

lemma stripChars_sublist (l : List Char) : (stripChars l).Sublist l :=
  (( List.rdropWhile_prefix pyIsSpace (l.dropWhile pyIsSpace)).sublist).trans
    ((List.dropWhile_suffix pyIsSpace).sublist)

lemma dropWhile_rdropWhile (l : List Char) :
    List.dropWhile pyIsSpace (List.rdropWhile pyIsSpace (List.dropWhile pyIsSpace l))
      = List.rdropWhile pyIsSpace (List.dropWhile pyIsSpace l) := by
  set m := List.dropWhile pyIsSpace l with hm
  have hdm : List.dropWhile pyIsSpace m = m := by
    rw [hm]
    exact List.dropWhile_idempotent pyIsSpace l
  obtain ⟨t, ht⟩ := ( List.rdropWhile_prefix pyIsSpace m)
  cases hr : List.rdropWhile pyIsSpace m with
  | nil => simp
  | cons c r' =>
      rw [hr] at ht
      have hpc : pyIsSpace c = false := by
        by_contra hps
        rw [Bool.not_eq_false] at hps
        rw [← ht, List.cons_append, List.dropWhile_cons_of_pos hps] at hdm
        have hle := ((List.dropWhile_suffix pyIsSpace (l := r' ++ t)).sublist).length_le
        rw [hdm] at hle
        simp only [List.length_cons] at hle
        omega
      rw [List.dropWhile_cons_of_neg (by simp [hpc])]

lemma stripChars_idem (l : List Char) : stripChars (stripChars l) = stripChars l := by
  unfold stripChars
  rw [dropWhile_rdropWhile]
  exact List.rdropWhile_idempotent pyIsSpace (List.dropWhile pyIsSpace l)

lemma strip_lower_fix (s : String) :
    pyStrip (pyLower (pyStrip (pyLower s))) = pyStrip (pyLower s) := by
  have hmap : (stripChars (s.data.map Char.toLower)).map Char.toLower
      = stripChars (s.data.map Char.toLower) := by
    apply List.map_congr_left ?_ |>.trans (List.map_id _)
    intro c hc
    have : c ∈ s.data.map Char.toLower := (stripChars_sublist _).mem hc
    obtain ⟨x, -, rfl⟩ := List.mem_map.mp this
    exact toLower_idem x
  show String.mk (stripChars ((stripChars (s.data.map Char.toLower)).map Char.toLower))
      = String.mk (stripChars (s.data.map Char.toLower))
  rw [hmap, stripChars_idem]

lemma parse_resume_cached (c : Collaborators) (db : DB) (state : PipelineState)
    (rec : ResumeRecord) (p : ResumeParsed)
    (h1 : db.resumes.find? (fun r => r.id == state.resume_id) = some rec)
    (h2 : rec.parsed_json = some p) :
    parse_resume_node c db state = ({ state with resume_parsed := some p }, db, 0) := by
  simp [parse_resume_node, h1, h2]

lemma parse_job_cached (c : Collaborators) (db : DB) (state : PipelineState)
    (rec : JobRecord) (p : JobParsed)
    (h1 : db.jobs.find? (fun j => j.id == state.job_id) = some rec)
    (h2 : rec.parsed_json = some p) :
    parse_job_node c db state = ({ state with job_parsed := some p }, db, 0) := by
  simp [parse_job_node, h1, h2]

/-! Part 7: the claims. -/

/-- C1, counterexample.  The claim says a stage entered with a non-null
`state.error` is a no-op that passes the state through unchanged, preserving
the first recorded error.  On the state left behind by a failed candidate
parse (`error = "Resume 1 not found"`, `resume_parsed = None`),
`analyze_gap_node` does change the state, and the first error message is not
preserved. -/
theorem C1_counterexample :
    ¬((analyze_gap_node emptyDB errState).1 = errState
      ∧ (analyze_gap_node emptyDB errState).1.error = some "Resume 1 not found") := by
  decide

/-- C1, amended.  Later stages do not check `state.error` and are not
no-ops on a missing precondition: `analyze_gap_node` entered with a missing
`resume_parsed` (resp. missing `job_parsed`) catches the internal
`AttributeError` and overwrites `state.error` with its own message, and
`generate_projects_node` calls its collaborator regardless and overwrites
`state.error` whenever that call fails.  Stages still never raise across
stage boundaries: each returns a state. -/
theorem C1_no_skip_overwrite (db : DB) (state : PipelineState) :
    (state.resume_parsed = none →
      analyze_gap_node db state = ({ state with error := some gapErrNoResume }, db))
    ∧ (∀ r, state.resume_parsed = some r → state.job_parsed = none →
      analyze_gap_node db state = ({ state with error := some gapErrNoJob }, db))
    ∧ (∀ (c : Collaborators) e, c.gen_projects state.gap_analysis = Except.error e →
      generate_projects_node c db state
        = ({ state with error := some ("Error generating projects: " ++ e) }, db)) := by
  refine ⟨fun h => ?_, fun r h1 h2 => ?_, fun c e h => ?_⟩
  · simp [analyze_gap_node, h]
  · simp [analyze_gap_node, h1, h2]
  · simp [generate_projects_node, h]

/-- Witness for the amended C1 at concrete inputs. -/
theorem C1_no_skip_overwrite_witness :
    analyze_gap_node emptyDB errState = ({ errState with error := some gapErrNoResume }, emptyDB)
    ∧ analyze_gap_node emptyDB errState2 = ({ errState2 with error := some gapErrNoJob }, emptyDB)
    ∧ generate_projects_node failingCollabs emptyDB errState
      = ({ errState with
            error := some ("Error generating projects: " ++ "'NoneType' object has no attribute 'get'") },
         emptyDB) :=
  ⟨(C1_no_skip_overwrite emptyDB errState).1 rfl,
   (C1_no_skip_overwrite emptyDB errState2).2.1 (sampleResume ["Python"]) rfl rfl,
   (C1_no_skip_overwrite emptyDB errState).2.2 failingCollabs
      "'NoneType' object has no attribute 'get'" rfl⟩

/-- C2: `missing_required_skills` is exactly the sublist of the job's
required skills with no candidate match under normalization (in job order),
`missing_preferred_skills` likewise for the preferred list; and on the
spec's worked example the missing lists are `["AWS"]` and `["Docker"]`. -/
theorem C2_missing_lists (resume : ResumeParsed) (job : JobParsed) :
    ((compute_gap resume job).missing_required_skills
        = job.required_skills.filter
            (fun skill => decide (∀ rs ∈ resume.skills, normalize_skill rs ≠ normalize_skill skill))
      ∧ (compute_gap resume job).missing_preferred_skills
        = job.preferred_skills.filter
            (fun skill => decide (∀ rs ∈ resume.skills, normalize_skill rs ≠ normalize_skill skill)))
    ∧ (compute_gap (sampleResume ["Python", "React"])
          (sampleJob ["Python", "AWS"] ["Docker"])).missing_required_skills = ["AWS"]
    ∧ (compute_gap (sampleResume ["Python", "React"])
          (sampleJob ["Python", "AWS"] ["Docker"])).missing_preferred_skills = ["Docker"] := by
  refine ⟨⟨?_, ?_⟩, by decide, by decide⟩
  · simp only [compute_gap]
    exact List.filter_congr (fun x _ => no_match_pred resume.skills x)
  · simp only [compute_gap]
    exact List.filter_congr (fun x _ => no_match_pred resume.skills x)

/-- C3: membership in `overlapping_skills` is exactly membership in the
union of `find_matching_skills` against the required and the preferred
lists; the field is deduplicated (no duplicate labels), and `weak_skills`
is always empty. -/
theorem C3_overlapping_union (resume : ResumeParsed) (job : JobParsed) :
    (∀ s : String, s ∈ (compute_gap resume job).overlapping_skills
        ↔ s ∈ find_matching_skills resume.skills job.required_skills
          ∨ s ∈ find_matching_skills resume.skills job.preferred_skills)
    ∧ (compute_gap resume job).overlapping_skills.Nodup
    ∧ (compute_gap resume job).weak_skills = [] := by
  refine ⟨fun s => mem_overlapping resume job s, ?_, rfl⟩
  simp [compute_gap, List.nodup_dedup]

/-- C4: `normalize_skill` returns the lowercased trimmed string unchanged
when it is not an alias key, returns the alias target when it equals an
alias key, and the spec's matcher examples hold: "JavaScript"/"JS",
"React.js"/"React" and "PostgreSQL"/"Postgres" match while
"Python"/"Java" do not. -/
theorem C4_normalize_alias :
    (∀ s : String, pyStrip (pyLower s) ∉ replacements.map Prod.fst →
        normalize_skill s = pyStrip (pyLower s))
    ∧ (∀ (s : String) (old tgt : String), (old, tgt) ∈ replacements →
        pyStrip (pyLower s) = old → normalize_skill s = tgt)
    ∧ skills_match "JavaScript" "JS" = true
    ∧ skills_match "React.js" "React" = true
    ∧ skills_match "PostgreSQL" "Postgres" = true
    ∧ skills_match "Python" "Java" = false := by
  refine ⟨?_, ?_, by decide, by decide, by decide, by decide⟩
  · intro s h
    have hnone : replacements.find? (fun p => p.1 == pyStrip (pyLower s)) = none := by
      rw [List.find?_eq_none]
      intro p hp he
      rw [beq_iff_eq] at he
      exact h (List.mem_map.mpr ⟨p, hp, he⟩)
    show (match replacements.find? (fun p => p.1 == pyStrip (pyLower s)) with
          | some p => p.2
          | none => pyStrip (pyLower s)) = pyStrip (pyLower s)
    rw [hnone]
  · intro s old tgt hmem heq
    simp only [replacements, List.mem_cons, List.not_mem_nil, or_false] at hmem
    rcases hmem with h | h | h | h | h | h | h <;>
      (injection h with h1 h2; subst h1; subst h2; simp only [normalize_skill, heq]; decide)

/-- Witness for C4 at concrete inputs: a non-alias skill and an alias key. -/
theorem C4_normalize_alias_witness :
    normalize_skill "Python" = pyStrip (pyLower "Python")
    ∧ normalize_skill "JavaScript" = "js" :=
  ⟨C4_normalize_alias.1 "Python" (by decide),
   C4_normalize_alias.2.1 "JavaScript" "javascript" "js" (by decide) (by decide)⟩

/-- C5: `find_matching_skills` keeps exactly the reference labels for which
some candidate label matches, emitting the reference spelling in reference
order, so the result is both the corresponding filter of the reference list
and a subsequence of it. -/
theorem C5_reference_spelling (c ref : List String) :
    find_matching_skills c ref = ref.filter (fun l => c.any (fun s => skills_match s l))
    ∧ (find_matching_skills c ref).Sublist ref := by
  refine ⟨find_matching_eq_filter c ref, ?_⟩
  rw [find_matching_eq_filter]
  exact List.filter_sublist ref

/-- C6: when a fetched record already carries a persisted parsed payload,
the parse stage deserializes it, leaves the database unchanged and invokes
its parsing collaborator zero times; when both records carry payloads, a
whole pipeline run makes zero invocations of either parser. -/
theorem C6_parse_caching (c : Collaborators) (db : DB) (state : PipelineState) :
    (∀ rec p, db.resumes.find? (fun r => r.id == state.resume_id) = some rec →
        rec.parsed_json = some p →
        parse_resume_node c db state = ({ state with resume_parsed := some p }, db, 0))
    ∧ (∀ rec p, db.jobs.find? (fun j => j.id == state.job_id) = some rec →
        rec.parsed_json = some p →
        parse_job_node c db state = ({ state with job_parsed := some p }, db, 0))
    ∧ (∀ rrec jrec rp jp resume_id job_id,
        db.resumes.find? (fun r => r.id == resume_id) = some rrec →
        rrec.parsed_json = some rp →
        db.jobs.find? (fun j => j.id == job_id) = some jrec →
        jrec.parsed_json = some jp →
        (invoke_graph c db (initial_state resume_id job_id)).2.2
          = { resume_calls := 0, job_calls := 0 }) := by
  refine ⟨fun rec p h1 h2 => parse_resume_cached c db state rec p h1 h2,
          fun rec p h1 h2 => parse_job_cached c db state rec p h1 h2,
          fun rrec jrec rp jp rid jid h1 h2 h3 h4 => ?_⟩
  have e1 : parse_resume_node c db (initial_state rid jid)
      = ({ initial_state rid jid with resume_parsed := some rp }, db, 0) :=
    parse_resume_cached c db (initial_state rid jid) rrec rp h1 h2
  have e2 : parse_job_node c db { initial_state rid jid with resume_parsed := some rp }
      = ({ initial_state rid jid with resume_parsed := some rp, job_parsed := some jp }, db, 0) :=
    parse_job_cached c db _ jrec jp h3 h4
  simp only [invoke_graph, e1, e2]

/-- Witness for C6 on a database whose two records are cached, under
collaborators that would fail if they were ever invoked. -/
theorem C6_parse_caching_witness :
    parse_resume_node failingCollabs cachedDB (initial_state 1 2)
      = ({ initial_state 1 2 with resume_parsed := some (sampleResume ["Python"]) }, cachedDB, 0)
    ∧ parse_job_node failingCollabs cachedDB (initial_state 1 2)
      = ({ initial_state 1 2 with job_parsed := some (sampleJob ["Python"] []) }, cachedDB, 0)
    ∧ (invoke_graph failingCollabs cachedDB (initial_state 1 2)).2.2
      = { resume_calls := 0, job_calls := 0 } :=
  ⟨(C6_parse_caching failingCollabs cachedDB (initial_state 1 2)).1
      { id := 1, raw_text := "raw resume", parsed_json := some (sampleResume ["Python"]) }
      (sampleResume ["Python"]) rfl rfl,
   (C6_parse_caching failingCollabs cachedDB (initial_state 1 2)).2.1
      { id := 2, extracted_text := "raw jd", parsed_json := some (sampleJob ["Python"] []) }
      (sampleJob ["Python"] []) rfl rfl,
   (C6_parse_caching failingCollabs cachedDB (initial_state 1 2)).2.2
      { id := 1, raw_text := "raw resume", parsed_json := some (sampleResume ["Python"]) }
      { id := 2, extracted_text := "raw jd", parsed_json := some (sampleJob ["Python"] []) }
      (sampleResume ["Python"]) (sampleJob ["Python"] []) 1 2 rfl rfl rfl rfl⟩

/-- C7: the driver returns the final state of the stage sequence when its
error field is null, and otherwise produces the single aggregated failure
wrapping the stage-level message; the stages themselves are total
functions into states, so no stage raises across a stage boundary — the
driver is the only raising point. -/
theorem C7_driver_aggregation (c : Collaborators) (resume_id job_id : Nat) (db : DB) :
    ((invoke_graph c db (initial_state resume_id job_id)).1.error = none →
      (run_pipeline c resume_id job_id db).1
        = Except.ok (invoke_graph c db (initial_state resume_id job_id)).1)
    ∧ (∀ e, (invoke_graph c db (initial_state resume_id job_id)).1.error = some e →
      (run_pipeline c resume_id job_id db).1
        = Except.error ("Pipeline execution failed: " ++ e)) := by
  constructor
  · intro h
    simp [run_pipeline, h]
  · intro e h
    simp [run_pipeline, h]

/-- Witness for C7: a fully cached successful run returns the final state,
and a run against an empty database raises the aggregated failure. -/
theorem C7_driver_aggregation_witness :
    (run_pipeline okCollabs 1 2 cachedDB).1
      = Except.ok (invoke_graph okCollabs cachedDB (initial_state 1 2)).1
    ∧ (run_pipeline failingCollabs 1 2 emptyDB).1
      = Except.error ("Pipeline execution failed: " ++ "Error improving resume: boom") :=
  ⟨(C7_driver_aggregation okCollabs 1 2 cachedDB).1 (by decide),
   (C7_driver_aggregation failingCollabs 1 2 emptyDB).2 "Error improving resume: boom" (by decide)⟩

/-- C8: `compute_gap` is total on empty inputs: empty job lists give empty
missing lists, an empty candidate list gives empty overlap and reports all
job skills as missing, and the spec's worked example holds. -/
theorem C8_empty_inputs (resume : ResumeParsed) (job : JobParsed) :
    ((job.required_skills = [] → (compute_gap resume job).missing_required_skills = [])
      ∧ (job.preferred_skills = [] → (compute_gap resume job).missing_preferred_skills = []))
    ∧ (resume.skills = [] →
        (compute_gap resume job).overlapping_skills = []
        ∧ (compute_gap resume job).missing_required_skills = job.required_skills
        ∧ (compute_gap resume job).missing_preferred_skills = job.preferred_skills)
    ∧ ((compute_gap (sampleResume []) (sampleJob ["React", "TypeScript"] ["Next.js"])).overlapping_skills = []
      ∧ (compute_gap (sampleResume []) (sampleJob ["React", "TypeScript"] ["Next.js"])).missing_required_skills
          = ["React", "TypeScript"]
      ∧ (compute_gap (sampleResume []) (sampleJob ["React", "TypeScript"] ["Next.js"])).missing_preferred_skills
          = ["Next.js"]) := by
  refine ⟨⟨fun h => ?_, fun h => ?_⟩, fun h => ?_, by decide, by decide, by decide⟩
  · simp [compute_gap, h]
  · simp [compute_gap, h]
  · simp [compute_gap, find_matching_skills, h]

/-- Witness for C8 at concrete empty inputs. -/
theorem C8_empty_inputs_witness :
    (compute_gap (sampleResume ["Python"]) (sampleJob [] [])).missing_required_skills = []
    ∧ (compute_gap (sampleResume ["Python"]) (sampleJob [] [])).missing_preferred_skills = []
    ∧ (compute_gap (sampleResume []) (sampleJob ["AWS"] ["Go"])).overlapping_skills = []
    ∧ (compute_gap (sampleResume []) (sampleJob ["AWS"] ["Go"])).missing_required_skills = ["AWS"]
    ∧ (compute_gap (sampleResume []) (sampleJob ["AWS"] ["Go"])).missing_preferred_skills = ["Go"] :=
  ⟨(C8_empty_inputs (sampleResume ["Python"]) (sampleJob [] [])).1.1 rfl,
   (C8_empty_inputs (sampleResume ["Python"]) (sampleJob [] [])).1.2 rfl,
   (C8_empty_inputs (sampleResume []) (sampleJob ["AWS"] ["Go"])).2.1 rfl⟩

/-- C9: for each label of the job's required (resp. preferred) list,
membership in `overlapping_skills` holds exactly when the label is not in
`missing_required_skills` (resp. `missing_preferred_skills`): the two
fields partition each job skill list by membership. -/
theorem C9_partition (resume : ResumeParsed) (job : JobParsed) (l : String) :
    (l ∈ job.required_skills →
      (l ∈ (compute_gap resume job).overlapping_skills
        ↔ l ∉ (compute_gap resume job).missing_required_skills))
    ∧ (l ∈ job.preferred_skills →
      (l ∈ (compute_gap resume job).overlapping_skills
        ↔ l ∉ (compute_gap resume job).missing_preferred_skills)) := by
  constructor
  · intro hreq
    rw [mem_overlapping, mem_missing_required]
    constructor
    · rintro (hm | hm) ⟨-, hall⟩
      · obtain ⟨-, s, hs, hns⟩ := (mem_find_matching _ _ _).mp hm
        exact hall s hs hns
      · obtain ⟨-, s, hs, hns⟩ := (mem_find_matching _ _ _).mp hm
        exact hall s hs hns
    · intro hnot
      left
      rw [mem_find_matching]
      refine ⟨hreq, ?_⟩
      by_contra hno
      push_neg at hno
      exact hnot ⟨hreq, hno⟩
  · intro hpref
    rw [mem_overlapping, mem_missing_preferred]
    constructor
    · rintro (hm | hm) ⟨-, hall⟩
      · obtain ⟨-, s, hs, hns⟩ := (mem_find_matching _ _ _).mp hm
        exact hall s hs hns
      · obtain ⟨-, s, hs, hns⟩ := (mem_find_matching _ _ _).mp hm
        exact hall s hs hns
    · intro hnot
      right
      rw [mem_find_matching]
      refine ⟨hpref, ?_⟩
      by_contra hno
      push_neg at hno
      exact hnot ⟨hpref, hno⟩

/-- Witness for C9 on the spec's worked example. -/
theorem C9_partition_witness :
    ("Python" ∈ (compute_gap (sampleResume ["Python"]) (sampleJob ["Python"] ["Docker"])).overlapping_skills
      ↔ "Python" ∉ (compute_gap (sampleResume ["Python"]) (sampleJob ["Python"] ["Docker"])).missing_required_skills)
    ∧ ("Docker" ∈ (compute_gap (sampleResume ["Python"]) (sampleJob ["Python"] ["Docker"])).overlapping_skills
      ↔ "Docker" ∉ (compute_gap (sampleResume ["Python"]) (sampleJob ["Python"] ["Docker"])).missing_preferred_skills) :=
  ⟨(C9_partition (sampleResume ["Python"]) (sampleJob ["Python"] ["Docker"]) "Python").1 (by decide),
   (C9_partition (sampleResume ["Python"]) (sampleJob ["Python"] ["Docker"]) "Docker").2 (by decide)⟩

/-- C10: `normalize_skill` is idempotent: every alias target and every
lowercased trimmed non-alias string is a fixed point of normalization. -/
theorem C10_normalize_idempotent (s : String) :
    normalize_skill (normalize_skill s) = normalize_skill s := by
  cases hf : replacements.find? (fun p => p.1 == pyStrip (pyLower s)) with
  | some p =>
      have h1 : normalize_skill s = p.2 := by
        show (match replacements.find? (fun p => p.1 == pyStrip (pyLower s)) with
              | some p => p.2
              | none => pyStrip (pyLower s)) = p.2
        rw [hf]
      have hp := List.mem_of_find?_eq_some hf
      rw [h1]
      simp only [replacements, List.mem_cons, List.not_mem_nil, or_false] at hp
      rcases hp with h | h | h | h | h | h | h <;> (rw [h]; decide)
  | none =>
      have h1 : normalize_skill s = pyStrip (pyLower s) := by
        show (match replacements.find? (fun p => p.1 == pyStrip (pyLower s)) with
              | some p => p.2
              | none => pyStrip (pyLower s)) = pyStrip (pyLower s)
        rw [hf]
      rw [h1]
      show (match replacements.find? (fun p => p.1 == pyStrip (pyLower (pyStrip (pyLower s)))) with
            | some p => p.2
            | none => pyStrip (pyLower (pyStrip (pyLower s)))) = pyStrip (pyLower s)
      rw [strip_lower_fix s, hf]

end FirstPlay
